import Mathlib

/-!
Shallow embedding of the weather data-collection pipeline
(src/src/data_collection/weather_collector.py and
src/src/data_collection/scheduler.py).

Modelling conventions:
* The SQLite store is a `DB` value: the three tables are lists of rows,
  appended in insertion order.  The PRIMARY KEY of `city_coordinates`
  (column `city`) is modelled by the insert raising (here: failing) when a
  row with the same city is already present.
* The external world is an `Env`: geocoding responses per city
  (`none` abstracts both an empty result list and a network failure —
  both make `get_city_coordinates` return `None`), the current-weather
  endpoint as a function of latitude, longitude and the index of the HTTP
  call (responses may change between calls), and per-record outcomes of
  the two INSERT statements (`false` means the insert raises, which the
  source catches).
* Floating-point numbers are modelled as rationals, integer columns as
  integers; Python `%` on nonnegative divisors agrees with `Int.emod`.
* Observable effects (network calls, inserts, `logger.error` lines,
  `time.sleep`, CSV export) are recorded in an event trace.  `logger.info`
  lines are not modelled.
-/

namespace Weather

/-- One geocoding match, as read from the geocoding endpoint response
(fields `name`, `country`, `lat`, `lon` of `data[0]`). -/
structure GeoResult where
  name : String
  country : String
  lat : ℚ
  lon : ℚ
  deriving DecidableEq

/-- A current-weather endpoint response, reduced to the fields the source
reads (`dt`, `main.*`, `wind.*`, `visibility`, `clouds.all`, `weather[0].*`,
`sys.sunrise`, `sys.sunset`; the `wind`/`visibility` defaults of the
`.get(..., 0)` calls are part of the environment value). -/
structure WeatherResponse where
  dt : ℤ
  temp : ℚ
  feelsLike : ℚ
  humidity : ℤ
  pressure : ℚ
  windSpeed : ℚ
  windDeg : ℤ
  visibility : ℤ
  cloudCover : ℤ
  weatherMain : String
  weatherDescription : String
  sunrise : ℤ
  sunset : ℤ
  deriving DecidableEq

/-- A row of the `city_coordinates` cache table (PRIMARY KEY `city`). -/
structure CoordRow where
  city : String
  country : String
  latitude : ℚ
  longitude : ℚ
  deriving DecidableEq

/-- The coordinate dictionary returned by `get_city_coordinates`
(keys `city`, `country`, `lat`, `lon`). -/
structure Coords where
  city : String
  country : String
  lat : ℚ
  lon : ℚ
  deriving DecidableEq

/-- A row of the `current_weather` table (the columns written by
`store_current_weather`; `id` and `created_at` are generated by the store
and not modelled). -/
structure CurrentRecord where
  city : String
  country : String
  latitude : ℚ
  longitude : ℚ
  timestamp : ℤ
  temperature : ℚ
  feels_like : ℚ
  humidity : ℤ
  pressure : ℚ
  wind_speed : ℚ
  wind_direction : ℤ
  visibility : ℤ
  cloud_cover : ℤ
  weather_main : String
  weather_description : String
  sunrise : ℤ
  sunset : ℤ
  deriving DecidableEq

/-- A row of the `historical_weather` table (the columns written by
`store_historical_weather`).  `timestamp` is in days:
`now - (i+1)` for day offset `i`. -/
structure HistoricalRecord where
  city : String
  latitude : ℚ
  longitude : ℚ
  timestamp : ℤ
  temperature : ℚ
  feels_like : ℚ
  humidity : ℤ
  pressure : ℚ
  wind_speed : ℚ
  wind_direction : ℤ
  cloud_cover : ℤ
  weather_main : String
  weather_description : String
  deriving DecidableEq

/-- Observable events: HTTP calls, inserts, `logger.error` lines,
sleeps and CSV exports. -/
inductive Event where
  | geoCall (city : String)
  | geoError (city : String)
  | insertCoord (city : String)
  | weatherCall (lat lon : ℚ)
  | insertCurrent (city : String)
  | noCoordsError (city : String)
  | collectError (city : String)
  | insertHistorical (city : String)
  | histDayError (city : String) (day : Nat)
  | sleepEv (seconds : ℚ)
  | exportEv
  deriving DecidableEq

/-- Whether an event is a `time.sleep` call. -/
def Event.isSleep : Event → Bool
  | .sleepEv _ => true
  | _ => false

/-- The store plus call counters and the event trace. -/
structure DB where
  current : List CurrentRecord
  historical : List HistoricalRecord
  coords : List CoordRow
  geoCalls : Nat
  weatherCalls : Nat
  exports : Nat
  trace : List Event
  deriving DecidableEq

/-- A store with empty tables and no recorded events. -/
def emptyDB : DB := ⟨[], [], [], 0, 0, 0, []⟩

/-- The external world: geocoding, the current-weather endpoint
(indexed by the number of current-weather HTTP calls already made),
insert outcomes, and the current time (in days). -/
structure Env where
  geo : String → Option GeoResult
  weather : ℚ → ℚ → Nat → Option WeatherResponse
  storeCurrentOk : CurrentRecord → Bool
  storeHistoricalOk : HistoricalRecord → Bool
  now : ℤ

/-- `SELECT * FROM city_coordinates WHERE city = ?` (first matching row). -/
def findCoordRow (cache : List CoordRow) (city : String) : Option CoordRow :=
  cache.find? (fun r => r.city = city)

/-- `WeatherDataCollector.get_city_coordinates` (weather_collector.py
lines 106-159): cache lookup by the queried string, else one geocoding
call; on a match the coordinates are cached under the canonical name
`data[0].name` (an existing row with that key makes the INSERT raise,
which the except-block turns into `None`). -/
def get_city_coordinates (env : Env) (city : String) (st : DB) :
    Option Coords × DB :=
  match findCoordRow st.coords city with
  | some r => (some ⟨r.city, r.country, r.latitude, r.longitude⟩, st)
  | none =>
    let st1 : DB := { st with geoCalls := st.geoCalls + 1,
                              trace := st.trace ++ [Event.geoCall city] }
    match env.geo city with
    | none =>
      (none, { st1 with trace := st1.trace ++ [Event.geoError city] })
    | some g =>
      if st1.coords.any (fun r => r.city = g.name) then
        (none, { st1 with trace := st1.trace ++ [Event.geoError city] })
      else
        (some ⟨g.name, g.country, g.lat, g.lon⟩,
          { st1 with coords := st1.coords ++ [⟨g.name, g.country, g.lat, g.lon⟩],
                     trace := st1.trace ++ [Event.insertCoord g.name] })

/-- The `weather_data` dictionary built in `collect_current_weather`
(lines 182-200). -/
def mkCurrentRecord (c : Coords) (r : WeatherResponse) : CurrentRecord :=
  { city := c.city
    country := c.country
    latitude := c.lat
    longitude := c.lon
    timestamp := r.dt
    temperature := r.temp
    feels_like := r.feelsLike
    humidity := r.humidity
    pressure := r.pressure
    wind_speed := r.windSpeed
    wind_direction := r.windDeg
    visibility := r.visibility
    cloud_cover := r.cloudCover
    weather_main := r.weatherMain
    weather_description := r.weatherDescription
    sunrise := r.sunrise
    sunset := r.sunset }

/-- `WeatherDataCollector.collect_current_weather` (lines 161-209):
resolve coordinates, one current-weather call, store; any failure in the
try-block (HTTP error, missing field, or a raising INSERT) is caught,
logged with the same per-city error line, and turned into `False`. -/
def collect_current_weather (env : Env) (city : String) (st : DB) :
    Bool × DB :=
  match get_city_coordinates env city st with
  | (none, st1) =>
    (false, { st1 with trace := st1.trace ++ [Event.noCoordsError city] })
  | (some c, st1) =>
    let idx := st1.weatherCalls
    let st2 : DB := { st1 with weatherCalls := idx + 1,
                               trace := st1.trace ++ [Event.weatherCall c.lat c.lon] }
    match env.weather c.lat c.lon idx with
    | none =>
      (false, { st2 with trace := st2.trace ++ [Event.collectError city] })
    | some r =>
      let row := mkCurrentRecord c r
      if env.storeCurrentOk row then
        (true, { st2 with current := st2.current ++ [row],
                          trace := st2.trace ++ [Event.insertCurrent city] })
      else
        (false, { st2 with trace := st2.trace ++ [Event.collectError city] })

/-- The `historical_data` dictionary built for day offset `i` in
`collect_historical_weather` (lines 241-255).  The Python float literals
`0.1` and `0.05` are the rationals `1/10` and `1/20`. -/
def deriveHistorical (c : Coords) (now : ℤ) (i : Nat) (r : WeatherResponse) :
    HistoricalRecord :=
  { city := c.city
    latitude := c.lat
    longitude := c.lon
    timestamp := now - ((i : ℤ) + 1)
    temperature := r.temp + (i : ℚ) * (1 / 10)
    feels_like := r.feelsLike + (i : ℚ) * (1 / 10)
    humidity := max 0 (min 100 (r.humidity + ((i % 10 : ℕ) : ℤ)))
    pressure := r.pressure + ((i % 5 : ℕ) : ℚ)
    wind_speed := max 0 (r.windSpeed + (i : ℚ) * (1 / 20))
    wind_direction := (r.windDeg + ((i * 2 : ℕ) : ℤ)) % 360
    cloud_cover := max 0 (min 100 (r.cloudCover + ((i % 20 : ℕ) : ℤ)))
    weather_main := r.weatherMain
    weather_description := r.weatherDescription }

/-- The body of the per-day loop of `collect_historical_weather`
(lines 220-264): one current-weather call, derive the synthetic record,
store it, `time.sleep(0.1)`; any failure of the fetch or the INSERT is
caught, logged for that day, and the loop continues. -/
def collect_historical_day (env : Env) (c : Coords) (city : String)
    (i : Nat) (st : DB) : Bool × DB :=
  let idx := st.weatherCalls
  let st1 : DB := { st with weatherCalls := idx + 1,
                            trace := st.trace ++ [Event.weatherCall c.lat c.lon] }
  match env.weather c.lat c.lon idx with
  | none =>
    (false, { st1 with trace := st1.trace ++ [Event.histDayError city i] })
  | some r =>
    let row := deriveHistorical c env.now i r
    if env.storeHistoricalOk row then
      (true, { st1 with historical := st1.historical ++ [row],
                        trace := st1.trace ++
                          [Event.insertHistorical city, Event.sleepEv (1 / 10)] })
    else
      (false, { st1 with trace := st1.trace ++ [Event.histDayError city i] })

/-- The `for i in range(days_back)` loop of `collect_historical_weather`,
threading the success counter. -/
def histLoop (env : Env) (c : Coords) (city : String) :
    List Nat → Nat → DB → Nat × DB
  | [], k, st => (k, st)
  | i :: rest, k, st =>
    match collect_historical_day env c city i st with
    | (ok, st1) => histLoop env c city rest (if ok then k + 1 else k) st1

/-- `WeatherDataCollector.collect_historical_weather` (lines 211-267):
resolve coordinates (returning `False` on failure), run the per-day loop
over `range(days_back)` (empty when `days_back <= 0`), and report success
iff at least one day stored a record. -/
def collect_historical_weather (env : Env) (city : String)
    (days_back : ℤ) (st : DB) : Bool × DB :=
  match get_city_coordinates env city st with
  | (none, st1) =>
    (false, { st1 with trace := st1.trace ++ [Event.noCoordsError city] })
  | (some c, st1) =>
    let out := histLoop env c city (List.range days_back.toNat) 0 st1
    (decide (0 < out.1), out.2)

/-- `WeatherDataCollector.export_to_csv` (lines 339-359), abstracted to
its observable effect on the pipeline state: the store tables are only
read, the CSV files live outside the store. -/
def export_to_csv (st : DB) : DB :=
  { st with exports := st.exports + 1, trace := st.trace ++ [Event.exportEv] }

/-- The end-of-cycle summary logged by `collect_all_current`
(`success_count/len(cities)`). -/
structure CycleSummary where
  attempted : Nat
  succeeded : Nat
  deriving DecidableEq

/-- The `for city in self.config.cities` loop of
`WeatherScheduler.collect_all_current` (scheduler.py lines 28-34):
collect, count a success, then `time.sleep(API_DELAY_SECONDS)`
unconditionally (`collect_current_weather` returns a boolean and does not
raise, so the sleep is reached on failures as well). -/
def cycleLoop (env : Env) (delay : ℚ) :
    List String → Nat → DB → Nat × DB
  | [], k, st => (k, st)
  | city :: rest, k, st =>
    match collect_current_weather env city st with
    | (ok, st1) =>
      cycleLoop env delay rest (if ok then k + 1 else k)
        { st1 with trace := st1.trace ++ [Event.sleepEv delay] }

/-- `WeatherScheduler.collect_all_current` (scheduler.py lines 23-40):
run the loop over all configured cities, then export iff
`success_count > 0`; the summary pairs `len(cities)` with the count. -/
def collect_all_current (env : Env) (cities : List String) (delay : ℚ)
    (st : DB) : CycleSummary × DB :=
  let out := cycleLoop env delay cities 0 st
  let st2 := if 0 < out.1 then export_to_csv out.2 else out.2
  (⟨cities.length, out.1⟩, st2)

/-! ### Derived views used in theorem statements -/

/-- What one geocoding resolution of `city` would yield against a fixed
cache snapshot: the cached row if present, otherwise the geocoding answer
keyed under its canonical name. -/
def resolveStatic (env : Env) (cache : List CoordRow) (city : String) :
    Option Coords :=
  match findCoordRow cache city with
  | some r => some ⟨r.city, r.country, r.latitude, r.longitude⟩
  | none => (env.geo city).map (fun g => ⟨g.name, g.country, g.lat, g.lon⟩)

/-- A city is resolvable and fetchable against a cache snapshot: its
coordinates resolve, the current-weather fetch answers, and the INSERT of
the resulting record succeeds. -/
def cityOk (env : Env) (cache : List CoordRow) (city : String) : Bool :=
  match resolveStatic env cache city with
  | none => false
  | some c =>
    match env.weather c.lat c.lon 0 with
    | none => false
    | some r => env.storeCurrentOk (mkCurrentRecord c r)

/-- The record (if any) that day offset `i` of the historical loop stores
when its current-weather call is the `idx`-th weather call overall. -/
def dayOutcome (env : Env) (c : Coords) (idx : Nat) (i : Nat) :
    Option HistoricalRecord :=
  match env.weather c.lat c.lon idx with
  | none => none
  | some r =>
    let row := deriveHistorical c env.now i r
    if env.storeHistoricalOk row then some row else none

/-- Invariant of a collection cycle: the cache extends its initial
snapshot only by rows cached under their own canonical names for cities
that were previously unresolved. -/
def CacheInv (env : Env) (cache0 cache : List CoordRow) : Prop :=
  ∃ ext, cache = cache0 ++ ext ∧
    ∀ row ∈ ext, findCoordRow cache0 row.city = none ∧
      env.geo row.city = some ⟨row.city, row.country, row.latitude, row.longitude⟩

/-! ### Concrete fixtures for counterexamples and witnesses -/

def cityXName : String := "x"

def cityYName : String := "Y"

def cityAName : String := "A"

def cityBName : String := "B"

def testville : String := "Testville"

def countryGB : String := "GB"

def countryFR : String := "FR"

def mainClear : String := "Clear"

def descClear : String := "clear sky"

/-- A fixed current-weather response used by the concrete fixtures. -/
def respW : WeatherResponse :=
  ⟨100, 20, 21, 50, 1000, 3, 40, 10000, 30, mainClear, descClear, 50, 150⟩

/-- A cached coordinate row for city `A`. -/
def rowA : CoordRow := ⟨cityAName, countryGB, 1, 2⟩

/-- The coordinates `get_city_coordinates` returns for the cached `rowA`. -/
def coordsA : Coords := ⟨cityAName, countryGB, 1, 2⟩

/-- A store whose coordinate cache already holds city `A`. -/
def stA : DB := { emptyDB with coords := [rowA] }

/-- Geocoding maps the queried string `x` to canonical name `Y`:
the cache is keyed under `Y` while lookups use `x`. -/
def envC1 : Env :=
  { geo := fun c => if c = cityXName then some ⟨cityYName, countryGB, 1, 2⟩ else none
    weather := fun _ _ _ => none
    storeCurrentOk := fun _ => true
    storeHistoricalOk := fun _ => true
    now := 0 }

/-- Geocoding maps the queried string `A` to the canonical name `A`. -/
def envC1A : Env :=
  { geo := fun c => if c = cityAName then some ⟨cityAName, countryGB, 1, 2⟩ else none
    weather := fun _ _ _ => none
    storeCurrentOk := fun _ => true
    storeHistoricalOk := fun _ => true
    now := 0 }

/-- An environment where every external request fails. -/
def envNone : Env :=
  { geo := fun _ => none
    weather := fun _ _ _ => none
    storeCurrentOk := fun _ => true
    storeHistoricalOk := fun _ => true
    now := 0 }

/-! ### Helper lemmas -/

lemma findCoordRow_append (a b : List CoordRow) (c : String) :
    findCoordRow (a ++ b) c = (findCoordRow a c).or (findCoordRow b c) := by
  simp [findCoordRow, List.find?_append]

lemma findCoordRow_eq_none (cache : List CoordRow) (c : String) :
    findCoordRow cache c = none ↔ ∀ r ∈ cache, ¬ r.city = c := by
  simp [findCoordRow, List.find?_eq_none]

lemma any_city_eq_false (cache : List CoordRow) (c : String)
    (h : findCoordRow cache c = none) :
    cache.any (fun r => r.city = c) = false := by
  rw [findCoordRow_eq_none] at h
  simpa using h

lemma findCoordRow_some_city {cache : List CoordRow} {c : String}
    {r : CoordRow} (h : findCoordRow cache c = some r) : r.city = c := by
  have := List.find?_some h
  simpa using this

/-- `get_city_coordinates` touches only the coordinate cache, the
geocoding counter and the trace. -/
lemma get_city_coordinates_frame (env : Env) (city : String) (st : DB) :
    (get_city_coordinates env city st).2.current = st.current ∧
    (get_city_coordinates env city st).2.historical = st.historical ∧
    (get_city_coordinates env city st).2.weatherCalls = st.weatherCalls ∧
    (get_city_coordinates env city st).2.exports = st.exports := by
  unfold get_city_coordinates
  cases hf : findCoordRow st.coords city with
  | some r => simp
  | none =>
    cases hg : env.geo city with
    | none => simp
    | some g =>
      by_cases ha : st.coords.any (fun r => r.city = g.name) <;> simp [ha]

lemma histLoop_append (env : Env) (c : Coords) (city : String)
    (l1 l2 : List Nat) (k : Nat) (st : DB) :
    histLoop env c city (l1 ++ l2) k st =
      histLoop env c city l2 (histLoop env c city l1 k st).1
        (histLoop env c city l1 k st).2 := by
  induction l1 generalizing k st with
  | nil => simp [histLoop]
  | cons i rest ih =>
    rcases hd : collect_historical_day env c city i st with ⟨ok, st1⟩
    simp only [List.cons_append, histLoop, hd]
    exact ih _ _

lemma collect_historical_day_spec (env : Env) (c : Coords) (city : String)
    (i : Nat) (st : DB) :
    (collect_historical_day env c city i st).1 =
      (dayOutcome env c st.weatherCalls i).isSome ∧
    (collect_historical_day env c city i st).2.historical =
      st.historical ++ (dayOutcome env c st.weatherCalls i).toList ∧
    (collect_historical_day env c city i st).2.weatherCalls =
      st.weatherCalls + 1 ∧
    (collect_historical_day env c city i st).2.current = st.current ∧
    (collect_historical_day env c city i st).2.coords = st.coords ∧
    (collect_historical_day env c city i st).2.exports = st.exports ∧
    (collect_historical_day env c city i st).2.geoCalls = st.geoCalls := by
  unfold collect_historical_day dayOutcome
  cases hw : env.weather c.lat c.lon st.weatherCalls with
  | none => simp [hw]
  | some r =>
    by_cases hs : env.storeHistoricalOk (deriveHistorical c env.now i r) <;>
      simp [hw, hs]

/-- Running the per-day loop over `range n`: the stored rows are exactly
the successful day outcomes (one row per successful day, later days
unaffected by earlier failures), every day performs its fetch, and the
rest of the store is untouched. -/
lemma histLoop_range_spec (env : Env) (c : Coords) (city : String)
    (n : Nat) (k : Nat) (st : DB) :
    (histLoop env c city (List.range n) k st).1 =
      k + ((List.range n).filterMap
        (fun i => dayOutcome env c (st.weatherCalls + i) i)).length ∧
    (histLoop env c city (List.range n) k st).2.historical =
      st.historical ++ (List.range n).filterMap
        (fun i => dayOutcome env c (st.weatherCalls + i) i) ∧
    (histLoop env c city (List.range n) k st).2.weatherCalls =
      st.weatherCalls + n ∧
    (histLoop env c city (List.range n) k st).2.current = st.current ∧
    (histLoop env c city (List.range n) k st).2.coords = st.coords ∧
    (histLoop env c city (List.range n) k st).2.exports = st.exports ∧
    (histLoop env c city (List.range n) k st).2.geoCalls = st.geoCalls := by
  induction n with
  | zero => simp [histLoop]
  | succ n ih =>
    obtain ⟨ih1, ih2, ih3, ih4, ih5, ih6, ih7⟩ := ih
    rw [List.range_succ, histLoop_append]
    have hday := collect_historical_day_spec env c city n
      (histLoop env c city (List.range n) k st).2
    rcases hd : collect_historical_day env c city n
      (histLoop env c city (List.range n) k st).2 with ⟨ok, st1⟩
    rw [hd] at hday
    obtain ⟨hb, hh, hw, hc1, hc2, hc3, hc4⟩ := hday
    rw [ih3] at hb hh
    simp only [histLoop, hd, List.filterMap_append, List.filterMap_cons,
      List.filterMap_nil]
    refine ⟨?_, ?_, ?_, ?_, ?_, ?_, ?_⟩
    · cases hf : dayOutcome env c (st.weatherCalls + n) n <;>
        simp [hf] at hb <;> simp [hb, ih1, hf, List.length_append] <;> omega
    · rw [hh, ih2]
      cases hf : dayOutcome env c (st.weatherCalls + n) n <;>
        simp [hf, List.append_assoc]
    · rw [hw, ih3]
      omega
    · rw [hc1, ih4]
    · rw [hc2, ih5]
    · rw [hc3, ih6]
    · rw [hc4, ih7]

/-! ### C1 -/

/-- C1 counterexample: with geocoding mapping the query string `x` to
canonical name `Y`, the second `get_city_coordinates` call for `x` is not
served from the cache — it performs another geocoding network call
(the `geoCalls` counter increases) and returns a different result
(`none`, from the duplicate-key INSERT, instead of the coordinates
the first call returned). -/
theorem c1_second_resolution_not_cached_cex :
    (get_city_coordinates envC1 cityXName
        (get_city_coordinates envC1 cityXName emptyDB).2).2.geoCalls =
      (get_city_coordinates envC1 cityXName emptyDB).2.geoCalls + 1 ∧
    (get_city_coordinates envC1 cityXName
        (get_city_coordinates envC1 cityXName emptyDB).2).1 ≠
      (get_city_coordinates envC1 cityXName emptyDB).1 := by
  decide

/-- C1 (amended): when the city is already cached, or its geocoding
answer carries a canonical name equal to the queried string, resolving it
a second time returns the identical result and leaves the state untouched
(in particular the second call performs no geocoding network call). -/
theorem c1_resolution_idempotent_amended (env : Env) (city : String)
    (st : DB)
    (h : (findCoordRow st.coords city).isSome = true ∨
         ∃ g, env.geo city = some g ∧ g.name = city) :
    get_city_coordinates env city (get_city_coordinates env city st).2 =
      get_city_coordinates env city st := by
  rcases hf : findCoordRow st.coords city with _ | r
  · rcases h with h | ⟨g, hg, hname⟩
    · rw [hf] at h
      simp at h
    · have hany : st.coords.any (fun r => r.city = g.name) = false := by
        rw [hname]
        exact any_city_eq_false _ _ hf
      have hf2 : findCoordRow
          (st.coords ++ [(⟨g.name, g.country, g.lat, g.lon⟩ : CoordRow)]) city =
          some ⟨g.name, g.country, g.lat, g.lon⟩ := by
        rw [findCoordRow_append, hf]
        simp [findCoordRow, List.find?, hname]
      simp only [get_city_coordinates, hf, hg, hany]
      simp only [Bool.false_eq_true, if_false, get_city_coordinates, hf2]
  · simp only [get_city_coordinates, hf]

/-- C1 witness: a resolvable city whose canonical name equals the query
string is idempotent to resolve. -/
theorem c1_resolution_idempotent_amended_witness :
    get_city_coordinates envC1A cityAName
        (get_city_coordinates envC1A cityAName emptyDB).2 =
      get_city_coordinates envC1A cityAName emptyDB :=
  c1_resolution_idempotent_amended envC1A cityAName emptyDB
    (Or.inr ⟨⟨cityAName, countryGB, 1, 2⟩, by decide, by decide⟩)

/-! ### C7 -/

/-- The first writer's row for city `Y`, already in the cache. -/
def rowY : CoordRow := ⟨cityYName, countryGB, 5, 6⟩

/-- Geocoding maps the query `x` to canonical name `Y` with coordinates
differing from the cached `rowY`. -/
def envC7 : Env :=
  { geo := fun c => if c = cityXName then some ⟨cityYName, countryFR, 1, 2⟩ else none
    weather := fun _ _ _ => none
    storeCurrentOk := fun _ => true
    storeHistoricalOk := fun _ => true
    now := 0 }

/-- A store whose coordinate cache already holds the row for `Y`. -/
def stC7 : DB := { emptyDB with coords := [rowY] }

/-- C7 counterexample: resolving `x` misses the cache, geocodes to the
canonical name `Y` whose row already exists, so the INSERT hits the
duplicate key; the resolver then returns `none` — it does not reread the
cache and return the existing coordinates of `Y` (which stay in place
untouched). -/
theorem c7_duplicate_insert_returns_none_cex :
    findCoordRow stC7.coords cityXName = none ∧
    envC7.geo cityXName = some ⟨cityYName, countryFR, 1, 2⟩ ∧
    findCoordRow stC7.coords cityYName = some rowY ∧
    (get_city_coordinates envC7 cityXName stC7).1 = none ∧
    (get_city_coordinates envC7 cityXName stC7).2.coords = [rowY] := by
  decide

/-- C7 (amended): when the INSERT performed during resolution hits a
duplicate key (a row for the canonical name already exists), no exception
escapes the resolver and the first writer's row wins — the losing copy is
discarded and the cache is unchanged — but the resolver returns `none`
(NotFound) rather than rereading and returning the existing
coordinates. -/
theorem c7_duplicate_insert_amended (env : Env) (city : String) (st : DB)
    (g : GeoResult) (row : CoordRow)
    (hmiss : findCoordRow st.coords city = none)
    (hgeo : env.geo city = some g)
    (hdup : findCoordRow st.coords g.name = some row) :
    (get_city_coordinates env city st).1 = none ∧
    (get_city_coordinates env city st).2.coords = st.coords := by
  have hany : st.coords.any (fun r => r.city = g.name) = true := by
    refine List.any_eq_true.2 ⟨row, List.mem_of_find?_eq_some hdup, ?_⟩
    simpa using findCoordRow_some_city hdup
  simp [get_city_coordinates, hmiss, hgeo, hany]

/-- C7 witness: the amended behaviour at the concrete duplicate-key
instance. -/
theorem c7_duplicate_insert_amended_witness :
    (get_city_coordinates envC7 cityXName stC7).1 = none ∧
    (get_city_coordinates envC7 cityXName stC7).2.coords = stC7.coords :=
  c7_duplicate_insert_amended envC7 cityXName stC7
    ⟨cityYName, countryFR, 1, 2⟩ rowY (by decide) (by decide) (by decide)

/-! ### C8 -/

/-- An environment whose current-weather fetch fails. -/
def envFetchFail : Env :=
  { geo := fun _ => none
    weather := fun _ _ _ => none
    storeCurrentOk := fun _ => true
    storeHistoricalOk := fun _ => true
    now := 0 }

/-- An environment whose current-weather fetch succeeds but whose INSERT
into `current_weather` raises. -/
def envStoreFail : Env :=
  { geo := fun _ => none
    weather := fun _ _ _ => some respW
    storeCurrentOk := fun _ => false
    storeHistoricalOk := fun _ => true
    now := 0 }

/-- C8 counterexample: for the same cached city, a failing fetch and a
failing store produce byte-for-byte the same outcome — the same return
value, the same store state and the same error-log trace (the single
except-block logs both with the identical per-city message) — so the
storage failure is not surfaced distinctly from a fetch failure. -/
theorem c8_storage_error_indistinct_cex :
    envFetchFail.weather 1 2 0 = none ∧
    envStoreFail.weather 1 2 0 = some respW ∧
    envStoreFail.storeCurrentOk (mkCurrentRecord coordsA respW) = false ∧
    collect_current_weather envFetchFail cityAName stA =
      collect_current_weather envStoreFail cityAName stA := by
  decide

/-- C8 (amended): a failed INSERT into `current_weather` does not crash
the collection (the function returns `false` normally, so the cycle
continues and counts the city as failed), no row is stored, and the
failure is surfaced through the same per-city collection-error log line
that fetch failures use — not as a distinct storage error. -/
theorem c8_storage_error_amended (env : Env) (city : String) (st : DB)
    (c : Coords) (st1 : DB) (r : WeatherResponse)
    (hres : get_city_coordinates env city st = (some c, st1))
    (hfetch : env.weather c.lat c.lon st1.weatherCalls = some r)
    (hstore : env.storeCurrentOk (mkCurrentRecord c r) = false) :
    collect_current_weather env city st =
      (false, { st1 with weatherCalls := st1.weatherCalls + 1,
                         trace := st1.trace ++
                           [Event.weatherCall c.lat c.lon,
                            Event.collectError city] }) := by
  simp [collect_current_weather, hres, hfetch, hstore]

/-- C8 witness: the amended behaviour at the concrete store-failure
instance. -/
theorem c8_storage_error_amended_witness :
    collect_current_weather envStoreFail cityAName stA =
      (false, { stA with weatherCalls := stA.weatherCalls + 1,
                         trace := stA.trace ++
                           [Event.weatherCall coordsA.lat coordsA.lon,
                            Event.collectError cityAName] }) :=
  c8_storage_error_amended envStoreFail cityAName stA coordsA stA respW
    (by decide) (by decide) (by decide)

/-! ### C4 -/

/-- C4: whatever the numeric values of the fetched response (including
negative or out-of-range extremes), every synthetic historical record
derived with offset `i` has humidity in [0,100], cloud cover in [0,100]
and wind direction in [0,360). -/
theorem c4_synthetic_record_bounds (c : Coords) (now : ℤ) (i : Nat)
    (r : WeatherResponse) :
    0 ≤ (deriveHistorical c now i r).humidity ∧
    (deriveHistorical c now i r).humidity ≤ 100 ∧
    0 ≤ (deriveHistorical c now i r).cloud_cover ∧
    (deriveHistorical c now i r).cloud_cover ≤ 100 ∧
    0 ≤ (deriveHistorical c now i r).wind_direction ∧
    (deriveHistorical c now i r).wind_direction < 360 := by
  refine ⟨le_max_left _ _, max_le (by norm_num) (min_le_left _ _),
    le_max_left _ _, max_le (by norm_num) (min_le_left _ _),
    Int.emod_nonneg _ (by norm_num), Int.emod_lt_of_pos _ (by norm_num)⟩

/-! ### C6 -/

/-- C6: a cycle over the single city `Testville` whose geocoding finds no
match (and which is not cached) reports `attempted = 1, succeeded = 0`,
leaves all three tables of the store unchanged, and triggers no export. -/
theorem c6_testville_frame (env : Env) (st : DB) (delay : ℚ)
    (h1 : findCoordRow st.coords testville = none)
    (h2 : env.geo testville = none) :
    (collect_all_current env [testville] delay st).1 = ⟨1, 0⟩ ∧
    (collect_all_current env [testville] delay st).2.current = st.current ∧
    (collect_all_current env [testville] delay st).2.historical =
      st.historical ∧
    (collect_all_current env [testville] delay st).2.coords = st.coords ∧
    (collect_all_current env [testville] delay st).2.exports = st.exports := by
  simp [collect_all_current, cycleLoop, collect_current_weather,
    get_city_coordinates, h1, h2]

/-- C6 witness: the scenario at a concrete all-failing environment and an
empty store. -/
theorem c6_testville_frame_witness :
    (collect_all_current envNone [testville] 1 emptyDB).1 = ⟨1, 0⟩ ∧
    (collect_all_current envNone [testville] 1 emptyDB).2.current =
      emptyDB.current ∧
    (collect_all_current envNone [testville] 1 emptyDB).2.historical =
      emptyDB.historical ∧
    (collect_all_current envNone [testville] 1 emptyDB).2.coords =
      emptyDB.coords ∧
    (collect_all_current envNone [testville] 1 emptyDB).2.exports =
      emptyDB.exports :=
  c6_testville_frame envNone emptyDB 1 (by decide) (by decide)

/-! ### C10 -/

/-- C10: with `days_back ≤ 0` the historical routine performs no
current-weather fetch, stores no historical row and returns `false`,
while still running coordinate resolution first (whose effect on the
coordinate cache and the geocoding call counter is kept). -/
theorem c10_nonpositive_days (env : Env) (city : String) (st : DB)
    (days_back : ℤ) (h : days_back ≤ 0) :
    (collect_historical_weather env city days_back st).1 = false ∧
    (collect_historical_weather env city days_back st).2.historical =
      st.historical ∧
    (collect_historical_weather env city days_back st).2.weatherCalls =
      st.weatherCalls ∧
    (collect_historical_weather env city days_back st).2.coords =
      (get_city_coordinates env city st).2.coords ∧
    (collect_historical_weather env city days_back st).2.geoCalls =
      (get_city_coordinates env city st).2.geoCalls := by
  have hn : days_back.toNat = 0 := Int.toNat_of_nonpos h
  have hframe := get_city_coordinates_frame env city st
  unfold collect_historical_weather
  rcases hgc : get_city_coordinates env city st with ⟨copt, st1⟩
  rw [hgc] at hframe
  cases copt with
  | none =>
    simpa [hn, histLoop] using ⟨hframe.2.1, hframe.2.2.1⟩
  | some c =>
    simpa [hn, histLoop] using ⟨hframe.2.1, hframe.2.2.1⟩

/-- C10 witness: a negative `days_back` at a concrete environment. -/
theorem c10_nonpositive_days_witness :
    (collect_historical_weather envNone cityAName (-1) emptyDB).1 = false ∧
    (collect_historical_weather envNone cityAName (-1) emptyDB).2.historical =
      emptyDB.historical ∧
    (collect_historical_weather envNone cityAName (-1) emptyDB).2.weatherCalls =
      emptyDB.weatherCalls ∧
    (collect_historical_weather envNone cityAName (-1) emptyDB).2.coords =
      (get_city_coordinates envNone cityAName emptyDB).2.coords ∧
    (collect_historical_weather envNone cityAName (-1) emptyDB).2.geoCalls =
      (get_city_coordinates envNone cityAName emptyDB).2.geoCalls :=
  c10_nonpositive_days envNone cityAName emptyDB (-1) (by decide)

/-! ### C5 -/

/-- Weather fetches succeed except for the fourth call overall
(call index 3); geocoding is never needed because `A` is cached. -/
def envHist : Env :=
  { geo := fun _ => none
    weather := fun _ _ k => if k = 3 then none else some respW
    storeCurrentOk := fun _ => true
    storeHistoricalOk := fun _ => true
    now := 1000 }

/-- C5: once coordinates resolve, the historical routine processes every
day of `range(days_back)` whatever the per-day outcomes (each day
performs its fetch, so a failing day does not abort the remaining ones),
stores exactly one row per successful day, and reports success iff at
least one day succeeded. -/
theorem c5_historical_partial_failure (env : Env) (city : String)
    (st : DB) (days_back : ℤ) (c : Coords) (st1 : DB)
    (hres : get_city_coordinates env city st = (some c, st1)) :
    (collect_historical_weather env city days_back st).2.historical =
      st1.historical ++ (List.range days_back.toNat).filterMap
        (fun i => dayOutcome env c (st1.weatherCalls + i) i) ∧
    (collect_historical_weather env city days_back st).2.weatherCalls =
      st1.weatherCalls + days_back.toNat ∧
    (collect_historical_weather env city days_back st).1 =
      decide (0 < ((List.range days_back.toNat).filterMap
        (fun i => dayOutcome env c (st1.weatherCalls + i) i)).length) := by
  obtain ⟨h1, h2, h3, -, -, -, -⟩ :=
    histLoop_range_spec env c city days_back.toNat 0 st1
  simp only [collect_historical_weather, hres]
  exact ⟨h2, h3, by rw [h1]; simp⟩

/-- C5 witness: the spec scenario — `days_back = 5` for a cached city
where only day index 3 fails — stores 4 rows, not 5, and still reports
success. -/
theorem c5_historical_partial_failure_witness :
    ((collect_historical_weather envHist cityAName 5 stA).2.historical =
      stA.historical ++ (List.range (5 : ℤ).toNat).filterMap
        (fun i => dayOutcome envHist coordsA (stA.weatherCalls + i) i) ∧
    (collect_historical_weather envHist cityAName 5 stA).2.weatherCalls =
      stA.weatherCalls + (5 : ℤ).toNat ∧
    (collect_historical_weather envHist cityAName 5 stA).1 =
      decide (0 < ((List.range (5 : ℤ).toNat).filterMap
        (fun i => dayOutcome envHist coordsA (stA.weatherCalls + i) i)).length)) ∧
    ((collect_historical_weather envHist cityAName 5 stA).2.historical.length = 4 ∧
     (collect_historical_weather envHist cityAName 5 stA).1 = true) :=
  ⟨c5_historical_partial_failure envHist cityAName stA 5 coordsA stA (by decide),
   by decide⟩

/-! ### C3 -/

/-- C3: for every day offset `i` below `days_back` whose fetch returns a
response `r` (and whose insert succeeds), the synthetic record stored by
`collect_historical_weather` is exactly the claimed perturbation of `r`:
temperatures shifted by `i*0.1`, humidity and cloud cover clamped into
[0,100] after adding `i mod 10` and `i mod 20`, pressure shifted by
`i mod 5`, wind speed floored at 0 after adding `i*0.05`, wind direction
`(deg + 2*i) mod 360`, weather text passed through, observed at
`now - (i+1)` days. -/
theorem c3_synthetic_record_formulas (env : Env) (city : String) (st : DB)
    (days_back : ℤ) (c : Coords) (st1 : DB) (i : Nat) (r : WeatherResponse)
    (hres : get_city_coordinates env city st = (some c, st1))
    (hi : i < days_back.toNat)
    (hfetch : env.weather c.lat c.lon (st1.weatherCalls + i) = some r)
    (hstore : env.storeHistoricalOk (deriveHistorical c env.now i r) = true) :
    deriveHistorical c env.now i r ∈
      (collect_historical_weather env city days_back st).2.historical ∧
    deriveHistorical c env.now i r =
      { city := c.city
        latitude := c.lat
        longitude := c.lon
        timestamp := env.now - ((i : ℤ) + 1)
        temperature := r.temp + (i : ℚ) * (1 / 10)
        feels_like := r.feelsLike + (i : ℚ) * (1 / 10)
        humidity := max 0 (min 100 (r.humidity + (i : ℤ) % 10))
        pressure := r.pressure + ((i % 5 : ℕ) : ℚ)
        wind_speed := max 0 (r.windSpeed + (i : ℚ) * (1 / 20))
        wind_direction := (r.windDeg + 2 * (i : ℤ)) % 360
        cloud_cover := max 0 (min 100 (r.cloudCover + (i : ℤ) % 20))
        weather_main := r.weatherMain
        weather_description := r.weatherDescription } := by
  constructor
  · have h := histLoop_range_spec env c city days_back.toNat 0 st1
    unfold collect_historical_weather
    rw [hres]
    rw [h.2.1]
    refine List.mem_append_right _ ?_
    refine List.mem_filterMap.2 ⟨i, List.mem_range.2 hi, ?_⟩
    simp [dayOutcome, hfetch, hstore]
  · simp only [deriveHistorical, HistoricalRecord.mk.injEq]
    refine ⟨trivial, trivial, trivial, trivial, trivial, trivial, ?_,
      trivial, trivial, ?_, ?_, trivial, trivial⟩
    · omega
    · omega
    · omega

/-- C3 witness: the derived record for day offset 1 at the concrete
fixtures. -/
theorem c3_synthetic_record_formulas_witness :
    deriveHistorical coordsA envHist.now 1 respW ∈
      (collect_historical_weather envHist cityAName 5 stA).2.historical ∧
    deriveHistorical coordsA envHist.now 1 respW =
      { city := coordsA.city
        latitude := coordsA.lat
        longitude := coordsA.lon
        timestamp := envHist.now - ((1 : ℕ) + 1 : ℤ)
        temperature := respW.temp + ((1 : ℕ) : ℚ) * (1 / 10)
        feels_like := respW.feelsLike + ((1 : ℕ) : ℚ) * (1 / 10)
        humidity := max 0 (min 100 (respW.humidity + ((1 : ℕ) : ℤ) % 10))
        pressure := respW.pressure + ((1 % 5 : ℕ) : ℚ)
        wind_speed := max 0 (respW.windSpeed + ((1 : ℕ) : ℚ) * (1 / 20))
        wind_direction := (respW.windDeg + 2 * ((1 : ℕ) : ℤ)) % 360
        cloud_cover := max 0 (min 100 (respW.cloudCover + ((1 : ℕ) : ℤ) % 20))
        weather_main := respW.weatherMain
        weather_description := respW.weatherDescription } :=
  c3_synthetic_record_formulas envHist cityAName stA 5 coordsA stA 1 respW
    (by decide) (by decide) (by decide) (by decide)

/-! ### C2 -/

/-- Resolution against a cache satisfying `CacheInv` behaves like
resolution against the initial snapshot, and preserves the invariant,
provided geocoding answers for this city carry its own name. -/
lemma get_city_coordinates_static (env : Env) (cache0 : List CoordRow)
    (city : String) (st : DB)
    (hc : ∀ g, env.geo city = some g → g.name = city)
    (hinv : CacheInv env cache0 st.coords) :
    (get_city_coordinates env city st).1 = resolveStatic env cache0 city ∧
    CacheInv env cache0 (get_city_coordinates env city st).2.coords := by
  obtain ⟨ext, hcache, hext⟩ := hinv
  cases hf0 : findCoordRow cache0 city with
  | some r =>
    have hf : findCoordRow st.coords city = some r := by
      rw [hcache, findCoordRow_append, hf0]; rfl
    simp only [get_city_coordinates, resolveStatic, hf, hf0]
    exact ⟨trivial, ⟨ext, hcache, hext⟩⟩
  | none =>
    cases hfe : findCoordRow ext city with
    | some row =>
      have hf : findCoordRow st.coords city = some row := by
        rw [hcache, findCoordRow_append, hf0, hfe]; rfl
      have hmem : row ∈ ext := List.mem_of_find?_eq_some hfe
      have hcity : row.city = city := findCoordRow_some_city hfe
      obtain ⟨-, hgeo⟩ := hext row hmem
      rw [hcity] at hgeo
      simp only [get_city_coordinates, resolveStatic, hf, hf0, hgeo]
      exact ⟨by rw [hcity]; rfl, ⟨ext, hcache, hext⟩⟩
    | none =>
      have hf : findCoordRow st.coords city = none := by
        rw [hcache, findCoordRow_append, hf0, hfe]; rfl
      cases hg : env.geo city with
      | none =>
        simp only [get_city_coordinates, resolveStatic, hf, hf0, hg]
        exact ⟨rfl, ⟨ext, hcache, hext⟩⟩
      | some g =>
        have hname : g.name = city := hc g hg
        have hany : st.coords.any (fun r => r.city = g.name) = false := by
          rw [hname]
          exact any_city_eq_false _ _ hf
        simp only [get_city_coordinates, resolveStatic, hf, hf0, hg, hany,
          Bool.false_eq_true, if_false]
        refine ⟨rfl, ext ++ [⟨g.name, g.country, g.lat, g.lon⟩], ?_, ?_⟩
        · rw [hcache, List.append_assoc]
        · intro row hrow
          rcases List.mem_append.1 hrow with h | h
          · exact hext row h
          · simp only [List.mem_singleton] at h
            subst h
            have hgeta : (⟨g.name, g.country, g.lat, g.lon⟩ : GeoResult) = g :=
              rfl
            constructor
            · show findCoordRow cache0 g.name = none
              rw [hname]
              exact hf0
            · show env.geo g.name = some ⟨g.name, g.country, g.lat, g.lon⟩
              rw [hgeta, hname, hg]

/-- `collect_current_weather` under the cycle invariant: its boolean
result is the static `cityOk`, it appends one current row exactly on
success, and it preserves the invariant. -/
lemma collect_current_weather_static (env : Env) (cache0 : List CoordRow)
    (city : String) (st : DB)
    (hdet : ∀ lat lon i j, env.weather lat lon i = env.weather lat lon j)
    (hc : ∀ g, env.geo city = some g → g.name = city)
    (hinv : CacheInv env cache0 st.coords) :
    (collect_current_weather env city st).1 = cityOk env cache0 city ∧
    CacheInv env cache0 (collect_current_weather env city st).2.coords ∧
    (collect_current_weather env city st).2.current.length =
      st.current.length + (if cityOk env cache0 city then 1 else 0) ∧
    (collect_current_weather env city st).2.exports = st.exports := by
  have hstat := get_city_coordinates_static env cache0 city st hc hinv
  have hframe := get_city_coordinates_frame env city st
  rcases hgc : get_city_coordinates env city st with ⟨copt, st1⟩
  rw [hgc] at hstat hframe
  have hres : copt = resolveStatic env cache0 city := hstat.1
  have hinv1 : CacheInv env cache0 st1.coords := hstat.2
  have hcur : st1.current = st.current := hframe.1
  have hexp : st1.exports = st.exports := hframe.2.2.2
  cases copt with
  | none =>
    have hres0 : resolveStatic env cache0 city = none := hres.symm
    simp only [collect_current_weather, cityOk, hgc, hres0]
    exact ⟨trivial, hinv1, by simp [hcur], hexp⟩
  | some c =>
    have hres0 : resolveStatic env cache0 city = some c := hres.symm
    have hw : env.weather c.lat c.lon st1.weatherCalls =
        env.weather c.lat c.lon 0 := hdet _ _ _ _
    cases hwr : env.weather c.lat c.lon 0 with
    | none =>
      simp only [collect_current_weather, cityOk, hgc, hres0, hw, hwr]
      exact ⟨trivial, hinv1, by simp [hcur], hexp⟩
    | some r =>
      by_cases hs : env.storeCurrentOk (mkCurrentRecord c r) = true
      · simp only [collect_current_weather, cityOk, hgc, hres0, hw, hwr, hs,
          if_true]
        exact ⟨trivial, hinv1, by simp [hcur], hexp⟩
      · simp only [collect_current_weather, cityOk, hgc, hres0, hw, hwr,
          Bool.not_eq_true] at hs ⊢
        simp only [hs, Bool.false_eq_true, if_false]
        exact ⟨trivial, hinv1, by simp [hcur], hexp⟩

/-- The per-city loop of the cycle under the invariant: the success
count and the growth of the current table both equal the static count of
resolvable-and-fetchable cities. -/
lemma cycleLoop_static (env : Env) (cache0 : List CoordRow) (delay : ℚ)
    (cities : List String) (k : Nat) (st : DB)
    (hdet : ∀ lat lon i j, env.weather lat lon i = env.weather lat lon j)
    (hcanon : ∀ c ∈ cities, ∀ g, env.geo c = some g → g.name = c)
    (hinv : CacheInv env cache0 st.coords) :
    (cycleLoop env delay cities k st).1 =
      k + cities.countP (cityOk env cache0) ∧
    (cycleLoop env delay cities k st).2.current.length =
      st.current.length + cities.countP (cityOk env cache0) ∧
    (cycleLoop env delay cities k st).2.exports = st.exports := by
  induction cities generalizing k st with
  | nil => simp [cycleLoop]
  | cons city rest ih =>
    have hcity : ∀ g, env.geo city = some g → g.name = city :=
      hcanon city (List.mem_cons_self _ _)
    have hrest : ∀ c ∈ rest, ∀ g, env.geo c = some g → g.name = c :=
      fun c hcm => hcanon c (List.mem_cons_of_mem _ hcm)
    have hcol := collect_current_weather_static env cache0 city st hdet
      hcity hinv
    rcases hcc : collect_current_weather env city st with ⟨ok, st1⟩
    rw [hcc] at hcol
    have hok : ok = cityOk env cache0 city := hcol.1
    have hinv1 : CacheInv env cache0 st1.coords := hcol.2.1
    have hlen : st1.current.length =
        st.current.length + (if cityOk env cache0 city then 1 else 0) :=
      hcol.2.2.1
    have hexp : st1.exports = st.exports := hcol.2.2.2
    obtain ⟨ih1, ih2, ih3⟩ := ih (if ok then k + 1 else k)
      { st1 with trace := st1.trace ++ [Event.sleepEv delay] } hrest hinv1
    simp only [cycleLoop, hcc]
    refine ⟨?_, ?_, ?_⟩
    · rw [ih1, hok, List.countP_cons]
      cases cityOk env cache0 city <;> simp <;> omega
    · rw [ih2]
      simp only [List.countP_cons]
      rw [hlen]
      cases cityOk env cache0 city <;> simp <;> omega
    · rw [ih3]
      exact hexp

/-- C2: provided the weather endpoint answers each coordinate pair
consistently across the cycle and geocoding returns each listed city
under its own name (so that resolvable-and-fetchable is a well-defined
per-city property), a cycle over N cities of which exactly K satisfy
`cityOk` reports `attempted = N` and `succeeded = K` and appends exactly
K rows to the current_weather table. -/
theorem c2_cycle_counts (env : Env) (cities : List String) (delay : ℚ)
    (st : DB)
    (hdet : ∀ lat lon i j, env.weather lat lon i = env.weather lat lon j)
    (hcanon : ∀ c ∈ cities, ∀ g, env.geo c = some g → g.name = c) :
    (collect_all_current env cities delay st).1.attempted =
      cities.length ∧
    (collect_all_current env cities delay st).1.succeeded =
      cities.countP (cityOk env st.coords) ∧
    (collect_all_current env cities delay st).2.current.length =
      st.current.length + cities.countP (cityOk env st.coords) := by
  have h := cycleLoop_static env st.coords delay cities 0 st hdet hcanon
    ⟨[], by simp, by simp⟩
  rcases hcl : cycleLoop env delay cities 0 st with ⟨k, st1⟩
  rw [hcl] at h
  obtain ⟨h1, h2, h3⟩ := h
  have h1a : k = cities.countP (cityOk env st.coords) := by simpa using h1
  have h2a : st1.current.length =
      st.current.length + cities.countP (cityOk env st.coords) := h2
  simp only [collect_all_current, hcl]
  refine ⟨trivial, h1a, ?_⟩
  by_cases hk : 0 < k
  · rw [if_pos hk]
    exact h2a
  · rw [if_neg hk]
    exact h2a

/-- The two-city witness environment: `A` geocodes to itself, `B` does
not geocode; fetch and store always succeed. -/
def envC2 : Env :=
  { geo := fun c => if c = cityAName then some ⟨cityAName, countryGB, 1, 2⟩ else none
    weather := fun _ _ _ => some respW
    storeCurrentOk := fun _ => true
    storeHistoricalOk := fun _ => true
    now := 0 }

/-- C2 witness: a two-city cycle with one resolvable-and-fetchable city
reports 2 attempted, 1 succeeded, and one new current row. -/
theorem c2_cycle_counts_witness :
    ((collect_all_current envC2 [cityAName, cityBName] 1 emptyDB).1.attempted =
      [cityAName, cityBName].length ∧
     (collect_all_current envC2 [cityAName, cityBName] 1 emptyDB).1.succeeded =
      [cityAName, cityBName].countP (cityOk envC2 emptyDB.coords) ∧
     (collect_all_current envC2 [cityAName, cityBName] 1 emptyDB).2.current.length =
      emptyDB.current.length +
        [cityAName, cityBName].countP (cityOk envC2 emptyDB.coords)) ∧
    [cityAName, cityBName].countP (cityOk envC2 emptyDB.coords) = 1 :=
  ⟨c2_cycle_counts envC2 [cityAName, cityBName] 1 emptyDB
    (fun _ _ _ _ => rfl)
    (by
      intro c hc g hg
      simp only [List.mem_cons, List.not_mem_nil, or_false] at hc
      rcases hc with rfl | rfl
      · rw [show envC2.geo cityAName = some ⟨cityAName, countryGB, 1, 2⟩
          from by decide] at hg
        cases hg
        rfl
      · rw [show envC2.geo cityBName = none from by decide] at hg
        cases hg),
   by decide⟩

/-! ### C9 -/

lemma get_city_coordinates_trace (env : Env) (city : String) (st : DB) :
    ∃ d, (get_city_coordinates env city st).2.trace = st.trace ++ d ∧
      ∀ e ∈ d, e.isSleep = false := by
  cases hf : findCoordRow st.coords city with
  | some r =>
    refine ⟨[], ?_, by simp⟩
    simp [get_city_coordinates, hf]
  | none =>
    cases hg : env.geo city with
    | none =>
      refine ⟨[Event.geoCall city, Event.geoError city], ?_, ?_⟩
      · simp [get_city_coordinates, hf, hg]
      · intro e he
        fin_cases he <;> rfl
    | some g =>
      by_cases ha : st.coords.any (fun r => r.city = g.name) = true
      · refine ⟨[Event.geoCall city, Event.geoError city], ?_, ?_⟩
        · simp [get_city_coordinates, hf, hg, ha]
        · intro e he
          fin_cases he <;> rfl
      · rw [Bool.not_eq_true] at ha
        refine ⟨[Event.geoCall city, Event.insertCoord g.name], ?_, ?_⟩
        · simp [get_city_coordinates, hf, hg, ha]
        · intro e he
          fin_cases he <;> rfl

lemma collect_current_weather_trace (env : Env) (city : String) (st : DB) :
    ∃ d, (collect_current_weather env city st).2.trace = st.trace ++ d ∧
      ∀ e ∈ d, e.isSleep = false := by
  obtain ⟨d0, hd0, hs0⟩ := get_city_coordinates_trace env city st
  rcases hgc : get_city_coordinates env city st with ⟨copt, st1⟩
  rw [hgc] at hd0
  have hd0a : st1.trace = st.trace ++ d0 := hd0
  cases copt with
  | none =>
    refine ⟨d0 ++ [Event.noCoordsError city], ?_, ?_⟩
    · simp only [collect_current_weather, hgc]
      simp [hd0a]
    · intro e he
      rcases List.mem_append.1 he with h | h
      · exact hs0 e h
      · simp only [List.mem_singleton] at h
        subst h
        rfl
  | some c =>
    cases hw : env.weather c.lat c.lon st1.weatherCalls with
    | none =>
      refine ⟨d0 ++ [Event.weatherCall c.lat c.lon, Event.collectError city],
        ?_, ?_⟩
      · simp only [collect_current_weather, hgc, hw]
        simp [hd0a]
      · intro e he
        rcases List.mem_append.1 he with h | h
        · exact hs0 e h
        · fin_cases h <;> rfl
    | some r =>
      by_cases hs : env.storeCurrentOk (mkCurrentRecord c r) = true
      · refine ⟨d0 ++ [Event.weatherCall c.lat c.lon, Event.insertCurrent city],
          ?_, ?_⟩
        · simp only [collect_current_weather, hgc, hw, hs, if_true]
          simp [hd0a]
        · intro e he
          rcases List.mem_append.1 he with h | h
          · exact hs0 e h
          · fin_cases h <;> rfl
      · rw [Bool.not_eq_true] at hs
        refine ⟨d0 ++ [Event.weatherCall c.lat c.lon, Event.collectError city],
          ?_, ?_⟩
        · simp only [collect_current_weather, hgc, hw, hs, Bool.false_eq_true,
            if_false]
          simp [hd0a]
        · intro e he
          rcases List.mem_append.1 he with h | h
          · exact hs0 e h
          · fin_cases h <;> rfl

lemma cycleLoop_trace (env : Env) (delay : ℚ) (cities : List String)
    (k : Nat) (st : DB) :
    ∃ blocks : List (List Event),
      blocks.length = cities.length ∧
      (∀ b ∈ blocks, ∀ e ∈ b, e.isSleep = false) ∧
      (cycleLoop env delay cities k st).2.trace =
        st.trace ++
          (blocks.map (fun b => b ++ [Event.sleepEv delay])).flatten := by
  induction cities generalizing k st with
  | nil => exact ⟨[], rfl, by simp, by simp [cycleLoop]⟩
  | cons city rest ih =>
    obtain ⟨d0, hd0, hs0⟩ := collect_current_weather_trace env city st
    rcases hcc : collect_current_weather env city st with ⟨ok, st1⟩
    rw [hcc] at hd0
    have hd0a : st1.trace = st.trace ++ d0 := hd0
    obtain ⟨blocks, hbl, hbs, hbt⟩ := ih (if ok then k + 1 else k)
      { st1 with trace := st1.trace ++ [Event.sleepEv delay] }
    refine ⟨d0 :: blocks, by simp [hbl], ?_, ?_⟩
    · intro b hb
      rcases List.mem_cons.1 hb with rfl | hb
      · exact hs0
      · exact hbs b hb
    · simp only [cycleLoop, hcc]
      rw [hbt]
      simp [hd0a, List.append_assoc]

/-- C9: in one collection cycle the configured inter-request delay is
slept after the processing of every city, unconditionally — the trace is
the concatenation of per-city blocks (which contain no sleep) each
followed by the sleep event, so consecutive per-city attempts are always
separated by the delay; only the optional export event follows. -/
theorem c9_delay_after_every_city (env : Env) (cities : List String)
    (delay : ℚ) (st : DB) :
    ∃ (blocks : List (List Event)) (tail : List Event),
      blocks.length = cities.length ∧
      (∀ b ∈ blocks, ∀ e ∈ b, e.isSleep = false) ∧
      (tail = [] ∨ tail = [Event.exportEv]) ∧
      (collect_all_current env cities delay st).2.trace =
        st.trace ++
          (blocks.map (fun b => b ++ [Event.sleepEv delay])).flatten ++
          tail := by
  obtain ⟨blocks, h1, h2, h3⟩ := cycleLoop_trace env delay cities 0 st
  rcases hcl : cycleLoop env delay cities 0 st with ⟨k, st1⟩
  rw [hcl] at h3
  have h3a : st1.trace = st.trace ++
      (blocks.map (fun b => b ++ [Event.sleepEv delay])).flatten := h3
  simp only [collect_all_current, hcl]
  by_cases hk : 0 < k
  · refine ⟨blocks, [Event.exportEv], h1, h2, Or.inr rfl, ?_⟩
    rw [if_pos hk]
    simp [export_to_csv, h3a]
  · refine ⟨blocks, [], h1, h2, Or.inl rfl, ?_⟩
    rw [if_neg hk]
    simp [h3a]

end Weather
